import Mathlib

/-!
Verification of the data-preparation and filtering pipeline of the
air-quality dashboard (`dashboard/dashboard.py`).

The pipeline is embedded shallowly:
* a dataframe is a list of `Reading` rows plus a flag recording whether the
  derived `Air_Quality_Category` column is present;
* the `date` column (after `pd.to_datetime`) is a `Timestamp`: a day index
  plus a time-of-day, ordered lexicographically;
* possibly-missing float cells (NaN) are `Option ℚ`, and Python comparisons
  against NaN are `false`, as in IEEE semantics;
* pandas aggregations (`mean`, `resample('D')`, `groupby(...).mean()`,
  `value_counts()`) are spelled out as list functions, including pandas'
  NaN-skipping means, the gap-filling behaviour of `resample`, the sorted
  group keys of `groupby`, and the count-descending order of `value_counts`.
-/

namespace AirQuality

/-- A calendar timestamp as produced by `pd.to_datetime` on the `date`
column: a day index and a time-of-day offset within that day (`tod = 0`
is midnight). Ordered lexicographically. -/
structure Timestamp where
  day : ℕ
  tod : ℕ
deriving DecidableEq

/-- Python comparison `a <= b` between two timestamps. -/
def tsLe (a b : Timestamp) : Bool :=
  decide (a.day < b.day ∨ (a.day = b.day ∧ a.tod ≤ b.tod))

/-- One row of the dataframe.  Pollutant concentrations may be missing
(NaN), modelled as `none`.  The derived `Air_Quality_Category` cell is
`none` when the column is absent or the cell is null. -/
structure Reading where
  date : Timestamp
  station : String
  pm25 : Option ℚ
  pm10 : Option ℚ
  so2 : Option ℚ
  no2 : Option ℚ
  Air_Quality_Category : Option String
deriving DecidableEq

/-- A dataframe: its rows together with whether the
`Air_Quality_Category` column is present in the schema. -/
structure Dataset where
  rows : List Reading
  hasCategoryColumn : Bool
deriving DecidableEq

/-- Python `pm <= c` where `pm` may be NaN (`none`): every comparison
with NaN yields `False`. -/
def pyLe (pm : Option ℚ) (c : ℚ) : Bool :=
  match pm with
  | none => false
  | some v => decide (v ≤ c)

/-- `categorize_pm25` (dashboard.py lines 24-32): threshold binning of a
PM2.5 value into one of four labels. -/
def categorize_pm25 (pm : Option ℚ) : String :=
  if pyLe pm 50 then "Good"
  else if pyLe pm 100 then "Moderate"
  else if pyLe pm 150 then "Unhealthy for Sensitive Groups"
  else "Unhealthy"

/-- The file-system environment `load_data` runs in: `os.path.exists`,
and `pd.read_csv` where `none` models the parser raising (caught by the
surrounding `try`/`except`). -/
structure FileSystem where
  pathExists : String → Bool
  read_csv : String → Option Dataset

/-- `load_data` (dashboard.py lines 11-21): try `dashboard/main_data.csv`
then `main_data.csv`; parse the first existing path; `none` when neither
exists or the parse raises. -/
def load_data (fs : FileSystem) : Option Dataset :=
  if fs.pathExists "dashboard/main_data.csv" then fs.read_csv "dashboard/main_data.csv"
  else if fs.pathExists "main_data.csv" then fs.read_csv "main_data.csv"
  else none

/-- Lines 47-48: compute the `Air_Quality_Category` column from PM2.5
only when the loaded dataframe does not already have it. -/
def ensureCategory (d : Dataset) : Dataset :=
  if d.hasCategoryColumn then d
  else { rows := d.rows.map
           (fun r => { r with Air_Quality_Category := some (categorize_pm25 r.pm25) }),
         hasCategoryColumn := true }

/-- The user's sidebar selection: the multiselect station list and the
`st.date_input` day interval. -/
structure FilterSelection where
  selected_station : List String
  start_date : ℕ
  end_date : ℕ
deriving DecidableEq

/-- `str(d)` of a `datetime.date`, as pandas parses it back when compared
against the datetime column: midnight of day `d`. -/
def midnightOf (d : ℕ) : Timestamp := ⟨d, 0⟩

/-- Lines 74-75: `all_df[(all_df.date >= str(start_date)) & (all_df.date <= str(end_date))]`. -/
def dateFilter (start_date end_date : ℕ) (rows : List Reading) : List Reading :=
  rows.filter (fun r => tsLe (midnightOf start_date) r.date && tsLe r.date (midnightOf end_date))

/-- Lines 77-78: `if selected_station: main_df = main_df[main_df.station.isin(selected_station)]`;
an empty selection is falsy, so no station filter is applied. -/
def stationFilter (selected_station : List String) (rows : List Reading) : List Reading :=
  if selected_station.isEmpty then rows
  else rows.filter (fun r => decide (r.station ∈ selected_station))

/-- `main_df` (lines 74-78): the date filter followed by the station filter. -/
def main_df (rows : List Reading) (sel : FilterSelection) : List Reading :=
  stationFilter sel.selected_station (dateFilter sel.start_date sel.end_date rows)

/-- pandas `Series.mean()`: NaN entries are skipped; the mean of no
values is NaN (`none`). -/
def colMean (xs : List (Option ℚ)) : Option ℚ :=
  if (xs.filterMap id).length = 0 then none
  else some ((xs.filterMap id).sum / ((xs.filterMap id).length : ℚ))

/-- Line 84: `main_df['PM2.5'].mean()`. -/
def avg_pm25 (rows : List Reading) : Option ℚ := colMean (rows.map (·.pm25))

/-- Line 87: `main_df['PM10'].mean()`. -/
def avg_pm10 (rows : List Reading) : Option ℚ := colMean (rows.map (·.pm10))

/-- The rows falling on calendar day `d` (truncating `date` to day
granularity). -/
def dayGroup (rows : List Reading) (d : ℕ) : List Reading :=
  rows.filter (fun r => r.date.day == d)

/-- Day index of the earliest row (0 when there are no rows). -/
def minDay (rows : List Reading) : ℕ := ((rows.map (fun r => r.date.day)).min?).getD 0

/-- Day index of the latest row (0 when there are no rows). -/
def maxDay (rows : List Reading) : ℕ := ((rows.map (fun r => r.date.day)).max?).getD 0

/-- Mean PM2.5 of the rows on day `d` (NaN when that day has no rows or
only missing values). -/
def dayMean (rows : List Reading) (d : ℕ) : Option ℚ :=
  colMean ((dayGroup rows d).map (·.pm25))

/-- `daily_df` (lines 91-93): `resample(rule='D', on='date')` emits one
bin per day from the earliest to the latest day of the input, in order;
empty bins get a NaN mean; an empty input yields an empty frame. -/
def daily_df (rows : List Reading) : List (ℕ × Option ℚ) :=
  if rows.isEmpty then []
  else (List.range' (minDay rows) (maxDay rows - minDay rows + 1)).map
    (fun d => (d, dayMean rows d))

/-- The group keys of `groupby('station')` (default `sort=True`): the
distinct stations in ascending order. -/
def stationKeys (rows : List Reading) : List String :=
  ((rows.map (·.station)).dedup).insertionSort (· ≤ ·)

/-- The rows of station `s`. -/
def stationGroup (rows : List Reading) (s : String) : List Reading :=
  rows.filter (fun r => r.station == s)

/-- One row of the `station_avg` frame: a station and the mean of each
pollutant over that station's rows. -/
structure StationRow where
  station : String
  pm25 : Option ℚ
  pm10 : Option ℚ
  so2 : Option ℚ
  no2 : Option ℚ
deriving DecidableEq

/-- `station_avg` (lines 105-106):
`main_df.groupby('station')[['PM2.5','PM10','SO2','NO2']].mean()`. -/
def station_avg (rows : List Reading) : List StationRow :=
  (stationKeys rows).map (fun s =>
    ⟨s, colMean ((stationGroup rows s).map (·.pm25)),
        colMean ((stationGroup rows s).map (·.pm10)),
        colMean ((stationGroup rows s).map (·.so2)),
        colMean ((stationGroup rows s).map (·.no2))⟩)

/-- pandas `Series.unique()`: the distinct values in first-appearance
order. -/
def uniqueVals (xs : List String) : List String :=
  xs.foldl (fun acc x => if x ∈ acc then acc else acc ++ [x]) []

/-- Line 55: `all_df['station'].unique().tolist()`. -/
def station_list (rows : List Reading) : List String := uniqueVals (rows.map (·.station))

/-- pandas `Series.value_counts()`: null cells are dropped, each distinct
value is paired with its count, and the pairs are sorted by count
descending; ties keep their first-appearance order. -/
def value_counts (xs : List String) : List (String × ℕ) :=
  ((uniqueVals xs).map (fun v => (v, xs.count v))).insertionSort (fun a b => b.2 ≤ a.2)

/-- The `Air_Quality_Category` column of a frame, nulls dropped. -/
def categoryColumn (rows : List Reading) : List String :=
  rows.filterMap (·.Air_Quality_Category)

/-- `category_counts` (line 120): `main_df['Air_Quality_Category'].value_counts()`. -/
def category_counts (rows : List Reading) : List (String × ℕ) :=
  value_counts (categoryColumn rows)

/-- A reading timestamped one minute past midnight on day 0. -/
def rEndDay : Reading := ⟨⟨0, 1⟩, "Aotizhongxin", some 40, none, none, none, none⟩

/-- A reading at midnight of day 0. -/
def rDay0 : Reading := ⟨⟨0, 0⟩, "Aotizhongxin", some 10, none, none, none, none⟩

/-- A reading at midnight of day 2. -/
def rDay2 : Reading := ⟨⟨2, 0⟩, "Aotizhongxin", some 30, none, none, none, none⟩

/-- A reading at midnight of day 5. -/
def rDay5 : Reading := ⟨⟨5, 0⟩, "Aotizhongxin", some 30, none, none, none, none⟩

/-- A reading labelled Good. -/
def rGood : Reading := ⟨⟨0, 0⟩, "Aotizhongxin", some 40, none, none, none, some "Good"⟩

/-- A reading labelled Moderate, at a different station. -/
def rModerate : Reading := ⟨⟨0, 0⟩, "Changping", some 80, none, none, none, some "Moderate"⟩

/-- A pre-labelled dataset whose schema already has the category column. -/
def dPre : Dataset := ⟨[rGood, rModerate], true⟩

/-- A file system in which neither candidate path exists. -/
def fsNone : FileSystem := ⟨fun _ => false, fun _ => none⟩

/-! ## Helper lemmas -/

/-- Filtering twice with the same predicate is the same as filtering once. -/
theorem filter_idem {α : Type} (p : α → Bool) (l : List α) :
    List.filter p (List.filter p l) = List.filter p l := by
  induction l with
  | nil => rfl
  | cons a t ih => by_cases hp : p a = true <;> simp [List.filter_cons, hp, ih]

/-- Re-filtering with an interleaved pair of predicates changes nothing. -/
theorem filter_pair_idem {α : Type} (p q : α → Bool) (l : List α) :
    List.filter q (List.filter p (List.filter q (List.filter p l))) =
      List.filter q (List.filter p l) := by
  simp only [List.filter_filter]
  congr 1
  funext a
  cases p a <;> cases q a <;> rfl

/-- Membership in the first-appearance fold underlying `uniqueVals`. -/
theorem mem_uniqueVals_fold (xs : List String) (acc : List String) (x : String) :
    (x ∈ xs.foldl (fun a y => if y ∈ a then a else a ++ [y]) acc) ↔ (x ∈ acc ∨ x ∈ xs) := by
  induction xs generalizing acc with
  | nil => simp
  | cons y ys ih =>
    simp only [List.foldl_cons]
    by_cases h : y ∈ acc
    · rw [if_pos h, ih]
      constructor
      · rintro (hx | hx)
        · exact Or.inl hx
        · exact Or.inr (List.mem_cons_of_mem _ hx)
      · rintro (hx | hx)
        · exact Or.inl hx
        · rcases List.mem_cons.mp hx with rfl | hx
          · exact Or.inl h
          · exact Or.inr hx
    · rw [if_neg h, ih]
      simp only [List.mem_append, List.mem_cons, List.mem_singleton]
      tauto

/-- The station of any row appears in `station_list`. -/
theorem mem_station_list {rows : List Reading} {r : Reading} (h : r ∈ rows) :
    r.station ∈ station_list rows := by
  unfold station_list uniqueVals
  rw [mem_uniqueVals_fold]
  exact Or.inr (List.mem_map_of_mem _ h)

/-- `List.min?` on naturals only depends on the multiset of elements. -/
theorem min?_perm {l1 l2 : List ℕ} (h : l1.Perm l2) : l1.min? = l2.min? := by
  cases h2 : l2.min? with
  | none =>
    have he : l2 = [] := List.min?_eq_none_iff.mp h2
    subst he
    rw [List.perm_nil.mp h]
    exact h2
  | some a =>
    obtain ⟨ha, hall⟩ := List.min?_eq_some_iff'.mp h2
    exact List.min?_eq_some_iff'.mpr ⟨h.mem_iff.mpr ha, fun b hb => hall b (h.mem_iff.mp hb)⟩

/-- `List.max?` on naturals only depends on the multiset of elements. -/
theorem max?_perm {l1 l2 : List ℕ} (h : l1.Perm l2) : l1.max? = l2.max? := by
  cases h2 : l2.max? with
  | none =>
    have he : l2 = [] := List.max?_eq_none_iff.mp h2
    subst he
    rw [List.perm_nil.mp h]
    exact h2
  | some a =>
    obtain ⟨ha, hall⟩ := List.max?_eq_some_iff'.mp h2
    exact List.max?_eq_some_iff'.mpr ⟨h.mem_iff.mpr ha, fun b hb => hall b (h.mem_iff.mp hb)⟩

/-- A column mean only depends on the multiset of cells. -/
theorem colMean_perm {xs ys : List (Option ℚ)} (h : xs.Perm ys) : colMean xs = colMean ys := by
  unfold colMean
  rw [(h.filterMap id).sum_eq, (h.filterMap id).length_eq]

/-- `minDay` only depends on the multiset of rows. -/
theorem minDay_perm {l1 l2 : List Reading} (h : l1.Perm l2) : minDay l1 = minDay l2 := by
  unfold minDay
  rw [min?_perm (h.map _)]

/-- `maxDay` only depends on the multiset of rows. -/
theorem maxDay_perm {l1 l2 : List Reading} (h : l1.Perm l2) : maxDay l1 = maxDay l2 := by
  unfold maxDay
  rw [max?_perm (h.map _)]

/-- A day's mean only depends on the multiset of rows. -/
theorem dayMean_perm {l1 l2 : List Reading} (h : l1.Perm l2) (d : ℕ) :
    dayMean l1 d = dayMean l2 d := by
  unfold dayMean dayGroup
  exact colMean_perm ((h.filter _).map _)

/-- The sorted station keys only depend on the multiset of rows. -/
theorem stationKeys_perm {l1 l2 : List Reading} (h : l1.Perm l2) :
    stationKeys l1 = stationKeys l2 := by
  unfold stationKeys
  refine List.eq_of_perm_of_sorted ?_ (List.sorted_insertionSort _ _) (List.sorted_insertionSort _ _)
  exact (List.perm_insertionSort _ _).trans (((h.map _).dedup).trans (List.perm_insertionSort _ _).symm)

/-- The earliest day is no later than the latest day of a nonempty frame. -/
theorem minDay_le_maxDay (rows : List Reading) (h : rows ≠ []) : minDay rows ≤ maxDay rows := by
  unfold minDay maxDay
  have hne : rows.map (fun r => r.date.day) ≠ [] := by
    simpa using h
  cases hmin : (rows.map (fun r => r.date.day)).min? with
  | none => exact absurd (List.min?_eq_none_iff.mp hmin) hne
  | some a =>
    cases hmax : (rows.map (fun r => r.date.day)).max? with
    | none => exact absurd (List.max?_eq_none_iff.mp hmax) hne
    | some b =>
      obtain ⟨ha, _⟩ := List.min?_eq_some_iff'.mp hmin
      obtain ⟨_, hb⟩ := List.max?_eq_some_iff'.mp hmax
      simpa using hb a ha

/-! ## Claim theorems -/

/-- C1: `categorize_pm25` returns Good for pm25 ≤ 50, Moderate for
50 < pm25 ≤ 100, Unhealthy for Sensitive Groups for 100 < pm25 ≤ 150,
and Unhealthy for pm25 > 150; each boundary maps to the lower category. -/
theorem categorize_pm25_ranges (pm : ℚ) :
    (pm ≤ 50 → categorize_pm25 (some pm) = "Good") ∧
    (50 < pm → pm ≤ 100 → categorize_pm25 (some pm) = "Moderate") ∧
    (100 < pm → pm ≤ 150 → categorize_pm25 (some pm) = "Unhealthy for Sensitive Groups") ∧
    (150 < pm → categorize_pm25 (some pm) = "Unhealthy") := by
  refine ⟨fun h1 => ?_, fun h1 h2 => ?_, fun h1 h2 => ?_, fun h1 => ?_⟩
  · simp [categorize_pm25, pyLe, h1]
  · have h0 : ¬ pm ≤ 50 := by linarith
    simp [categorize_pm25, pyLe, h0, h2]
  · have h0 : ¬ pm ≤ 50 := by linarith
    have h0' : ¬ pm ≤ 100 := by linarith
    simp [categorize_pm25, pyLe, h0, h0', h2]
  · have h0 : ¬ pm ≤ 50 := by linarith
    have h0' : ¬ pm ≤ 100 := by linarith
    have h0'' : ¬ pm ≤ 150 := by linarith
    simp [categorize_pm25, pyLe, h0, h0', h0'']

/-- C1 witness: the boundary values 50, 100, 150 and the value 151. -/
theorem categorize_pm25_ranges_witness :
    categorize_pm25 (some 50) = "Good" ∧ categorize_pm25 (some 100) = "Moderate" ∧
    categorize_pm25 (some 150) = "Unhealthy for Sensitive Groups" ∧
    categorize_pm25 (some 151) = "Unhealthy" :=
  ⟨(categorize_pm25_ranges 50).1 (by norm_num),
   (categorize_pm25_ranges 100).2.1 (by norm_num) (by norm_num),
   (categorize_pm25_ranges 150).2.2.1 (by norm_num) (by norm_num),
   (categorize_pm25_ranges 151).2.2.2 (by norm_num)⟩

/-- C10: a missing (NaN) PM2.5 value makes every threshold comparison
false, so `categorize_pm25` falls through and returns Unhealthy. -/
theorem categorize_pm25_nan : categorize_pm25 none = "Unhealthy" := rfl

/-- C2 counterexample: a reading timestamped one minute past midnight on
the end day (day 0) is dropped by the date filter even though it is
dated on the end day, because the filter compares against midnight of
the end day. -/
theorem dateFilter_end_day_counterexample :
    rEndDay.date.day = 0 ∧ rEndDay ∈ [rEndDay] ∧ dateFilter 0 0 [rEndDay] = [] :=
  ⟨rfl, List.mem_cons_self _ _, rfl⟩

/-- C2 amended: the date filter retains exactly the readings whose date
lies between midnight of the start day and midnight of the end day,
inclusive; a reading on the end day with a nonzero time-of-day is
excluded. -/
theorem dateFilter_mem (rows : List Reading) (s e : ℕ) (r : Reading) :
    r ∈ dateFilter s e rows ↔
      r ∈ rows ∧ s ≤ r.date.day ∧
        (r.date.day < e ∨ (r.date.day = e ∧ r.date.tod = 0)) := by
  simp only [dateFilter, List.mem_filter, Bool.and_eq_true, tsLe, midnightOf,
    decide_eq_true_eq]
  refine and_congr_right fun _ => ?_
  omega

/-- C2 amended witness: a midnight reading on the single selected day is
retained. -/
theorem dateFilter_mem_witness : rDay0 ∈ dateFilter 0 0 [rDay0] :=
  (dateFilter_mem [rDay0] 0 0 rDay0).mpr
    ⟨List.mem_cons_self _ _, Nat.le_refl 0, Or.inr ⟨rfl, rfl⟩⟩

/-- C3 counterexample: with readings on days 0 and 2 only, day 1 has no
readings yet `daily_df` still emits an entry for it (with a NaN mean),
because `resample('D')` fills the whole day range. -/
theorem daily_df_gap_counterexample :
    dayGroup [rDay0, rDay2] 1 = [] ∧
    (1, (none : Option ℚ)) ∈ daily_df [rDay0, rDay2] := by
  constructor
  · rfl
  · have h : daily_df [rDay0, rDay2] =
        (0, dayMean [rDay0, rDay2] 0) :: (1, none) :: (2, dayMean [rDay0, rDay2] 2) :: [] := rfl
    rw [h]
    exact List.mem_cons_of_mem _ (List.mem_cons_self _ _)

/-- C3 amended: for a nonempty filtered dataset, `daily_df` has exactly
one entry per calendar day from the earliest to the latest day present,
each paired with that day's mean; a day in that span with zero readings
appears with an undefined (NaN) mean rather than being absent; days
outside the span are absent; an empty dataset yields an empty output. -/
theorem daily_df_mem (rows : List Reading) (d : ℕ) (m : Option ℚ) :
    ((d, m) ∈ daily_df rows ↔
      rows ≠ [] ∧ minDay rows ≤ d ∧ d ≤ maxDay rows ∧ m = dayMean rows d) ∧
    (dayGroup rows d = [] → dayMean rows d = none) := by
  constructor
  · unfold daily_df
    by_cases h : rows.isEmpty = true
    · rw [if_pos h]
      simp [List.isEmpty_iff.mp h]
    · rw [if_neg h]
      have hne : rows ≠ [] := by simpa [List.isEmpty_iff] using h
      have hminmax : minDay rows ≤ maxDay rows := minDay_le_maxDay rows hne
      simp only [List.mem_map, List.mem_range'_1, Prod.mk.injEq]
      constructor
      · rintro ⟨a, ⟨ha1, ha2⟩, rfl, rfl⟩
        exact ⟨hne, ha1, by omega, rfl⟩
      · rintro ⟨-, h1, h2, rfl⟩
        exact ⟨d, ⟨h1, by omega⟩, rfl, rfl⟩
  · intro h
    simp [dayMean, h, colMean]

/-- C3 amended witness: day 1 lies between day 0 and day 2, has no
readings, and appears in the output with a NaN mean. -/
theorem daily_df_mem_witness : ((1 : ℕ), (none : Option ℚ)) ∈ daily_df [rDay0, rDay2] :=
  (daily_df_mem [rDay0, rDay2] 1 none).1.mpr
    ⟨by decide, by decide, by decide,
     ((daily_df_mem [rDay0, rDay2] 1 none).2 rfl).symm⟩

/-- Selecting every station occurring in `rows` filters nothing out of
any sub-frame of `rows`. -/
theorem stationFilter_all (rows sub : List Reading) (hsub : ∀ r ∈ sub, r ∈ rows) :
    stationFilter (station_list rows) sub = sub := by
  unfold stationFilter
  split
  · rfl
  · rw [List.filter_eq_self]
    intro a ha
    simpa using mem_station_list (hsub a ha)

/-- C4: filtering with an empty station selection returns exactly the
same rows as filtering with the set of all stations occurring in the
dataset. -/
theorem empty_station_selection_no_filter (rows : List Reading) (s e : ℕ) :
    main_df rows ⟨[], s, e⟩ = main_df rows ⟨station_list rows, s, e⟩ := by
  show stationFilter [] (dateFilter s e rows) =
    stationFilter (station_list rows) (dateFilter s e rows)
  rw [stationFilter_all rows (dateFilter s e rows) (fun r hr => (List.mem_filter.mp hr).1)]
  rfl

/-- C5: `load_data` checks the two candidate paths in order and returns
the parse of the first existing one; it returns `none` when neither
path exists, and `none` when the parse of the chosen path fails — never
a partial dataset. -/
theorem load_data_spec (fs : FileSystem) :
    (fs.pathExists "dashboard/main_data.csv" = true →
      load_data fs = fs.read_csv "dashboard/main_data.csv") ∧
    (fs.pathExists "dashboard/main_data.csv" = false →
      fs.pathExists "main_data.csv" = true →
      load_data fs = fs.read_csv "main_data.csv") ∧
    (fs.pathExists "dashboard/main_data.csv" = false →
      fs.pathExists "main_data.csv" = false → load_data fs = none) ∧
    (fs.read_csv "dashboard/main_data.csv" = none →
      fs.read_csv "main_data.csv" = none → load_data fs = none) := by
  refine ⟨fun h1 => by simp [load_data, h1], fun h1 h2 => by simp [load_data, h1, h2],
    fun h1 h2 => by simp [load_data, h1, h2], fun h1 h2 => ?_⟩
  unfold load_data
  split
  · exact h1
  · split
    · exact h2
    · rfl

/-- C5 witness: with neither path present, loading yields `none`. -/
theorem load_data_spec_witness : load_data fsNone = none :=
  (load_data_spec fsNone).2.2.1 rfl rfl

/-- C6: when a filter selection matches no rows, the filtered dataset is
empty and every downstream aggregation degrades gracefully: the daily
trend, station comparison and category distribution are empty, and the
overall PM2.5 and PM10 means are NaN (undefined), not zero. -/
theorem empty_filter_aggregates (rows : List Reading) (sel : FilterSelection)
    (h : main_df rows sel = []) :
    avg_pm25 (main_df rows sel) = none ∧ avg_pm10 (main_df rows sel) = none ∧
    daily_df (main_df rows sel) = [] ∧ station_avg (main_df rows sel) = [] ∧
    category_counts (main_df rows sel) = [] := by
  rw [h]
  exact ⟨rfl, rfl, rfl, rfl, rfl⟩

/-- C6 witness: a date interval that excludes the only reading. -/
theorem empty_filter_aggregates_witness :
    avg_pm25 (main_df [rDay5] ⟨[], 0, 1⟩) = none ∧
    avg_pm10 (main_df [rDay5] ⟨[], 0, 1⟩) = none ∧
    daily_df (main_df [rDay5] ⟨[], 0, 1⟩) = [] ∧
    station_avg (main_df [rDay5] ⟨[], 0, 1⟩) = [] ∧
    category_counts (main_df [rDay5] ⟨[], 0, 1⟩) = [] :=
  empty_filter_aggregates [rDay5] ⟨[], 0, 1⟩ rfl

/-- C7: filtering is idempotent — applying `main_df` twice with the same
selection returns the same rows as applying it once. -/
theorem main_df_idempotent (rows : List Reading) (sel : FilterSelection) :
    main_df (main_df rows sel) sel = main_df rows sel := by
  unfold main_df stationFilter dateFilter
  by_cases h : sel.selected_station.isEmpty = true
  · simp only [h, if_true]
    exact filter_idem _ _
  · simp only [h, if_false]
    exact filter_pair_idem _ _ _

/-- C8: the category classifier runs only when the loaded dataset lacks
the `Air_Quality_Category` column; a pre-labelled dataset passes through
completely untouched, and when the column is absent it is computed from
PM2.5. -/
theorem category_only_when_missing (d : Dataset) :
    (d.hasCategoryColumn = true → ensureCategory d = d) ∧
    (d.hasCategoryColumn = false → ensureCategory d =
      ⟨d.rows.map (fun r => { r with Air_Quality_Category := some (categorize_pm25 r.pm25) }),
       true⟩) := by
  unfold ensureCategory
  constructor <;> intro h <;> simp [h]

/-- C8 witness: a concrete pre-labelled dataset is returned unchanged. -/
theorem category_only_when_missing_witness : ensureCategory dPre = dPre :=
  (category_only_when_missing dPre).1 rfl

/-- C9 counterexample: `value_counts` orders tied counts by first
appearance, so swapping two rows with different categories permutes the
category distribution's entries — the outputs differ as sequences. -/
theorem category_counts_order_counterexample :
    List.Perm [rGood, rModerate] [rModerate, rGood] ∧
    category_counts [rGood, rModerate] ≠ category_counts [rModerate, rGood] :=
  ⟨List.Perm.swap rModerate rGood [], by decide⟩

/-- C9 amended: the daily trend, station comparison and the two overall
means are invariant under any permutation of the rows, and the category
distribution is permutation-invariant in content (every category keeps
its count), though the order of tied entries can change. -/
theorem aggregates_perm_invariant (l1 l2 : List Reading) (h : l1.Perm l2) :
    daily_df l1 = daily_df l2 ∧ station_avg l1 = station_avg l2 ∧
    avg_pm25 l1 = avg_pm25 l2 ∧ avg_pm10 l1 = avg_pm10 l2 ∧
    ∀ c, (categoryColumn l1).count c = (categoryColumn l2).count c := by
  refine ⟨?_, ?_, colMean_perm (h.map _), colMean_perm (h.map _),
    fun c => (h.filterMap _).count_eq c⟩
  · unfold daily_df
    have he : l1.isEmpty = l2.isEmpty := by
      have := h.length_eq
      cases l1 <;> cases l2 <;> simp_all
    have hd : ∀ d, dayMean l1 d = dayMean l2 d := dayMean_perm h
    rw [he, minDay_perm h, maxDay_perm h]
    simp only [hd]
  · unfold station_avg
    rw [stationKeys_perm h]
    refine List.map_congr_left fun s _ => ?_
    have hg := h.filter (fun r => r.station == s)
    unfold stationGroup
    rw [colMean_perm (hg.map (·.pm25)), colMean_perm (hg.map (·.pm10)),
      colMean_perm (hg.map (·.so2)), colMean_perm (hg.map (·.no2))]

/-- C9 amended witness: swapping the two rows of a concrete dataset
leaves the daily trend and the station comparison unchanged. -/
theorem aggregates_perm_invariant_witness :
    daily_df [rGood, rModerate] = daily_df [rModerate, rGood] ∧
    station_avg [rGood, rModerate] = station_avg [rModerate, rGood] :=
  ⟨(aggregates_perm_invariant [rGood, rModerate] [rModerate, rGood]
      (List.Perm.swap rModerate rGood [])).1,
   (aggregates_perm_invariant [rGood, rModerate] [rModerate, rGood]
      (List.Perm.swap rModerate rGood [])).2.1⟩

end AirQuality
